import Mathlib

/-!
Verification of the Buying_Pool_2 affordability calculators.

The repository holds five variants of one Streamlit app (app.py, app2.py,
app4.py, app5.py, app7.py).  The numeric core of each variant is embedded
below over exact rationals (mortgage arithmetic) and over the reals
(the log-normal CDF approximations, which use tanh, exp, sqrt and pi).
Python float literals such as 0.05 are written as the exact rationals the
source denotes (5/100); all call sites of the annuity formula are shown to
have a nonzero denominator, so field division over the rationals agrees
with Python float division there.  The one fallible spot, the annuity
denominator at periodic rate 0, is modelled with Option: Python raises
ZeroDivisionError where the Option model returns none.
-/

namespace BuyingPool

/-! ## app.py: simple-regime mortgage arithmetic -/

namespace app

/-- app.py calc_affordable (lines 30-37): returns (income_needed, down_payment).
Down payment is a flat regional percentage of price, payment uses the contract
rate over a 25-year term, and required income divides by a 28 percent GDS. -/
def calc_affordable (price down_pct rate : ℚ) : ℚ × ℚ :=
  let down_payment := price * down_pct
  let loan := price - down_payment
  let monthly_rate := rate / 12
  let n_payments : ℕ := 25 * 12
  let monthly_payment := loan * (monthly_rate * (1 + monthly_rate) ^ n_payments) /
    ((1 + monthly_rate) ^ n_payments - 1)
  let income_needed := monthly_payment * 12 / (28/100)
  (income_needed, down_payment)

/-- The annuity monthly-payment line shared by every variant, with the
division modelled as fallible: when the denominator (1 + monthly_rate) pow
n_payments - 1 is zero, Python raises ZeroDivisionError, which is none here;
otherwise the Python expression evaluates to the quotient. -/
def annuity_monthly_payment (loan monthly_rate : ℚ) (n_payments : ℕ) : Option ℚ :=
  if (1 + monthly_rate) ^ n_payments - 1 = 0 then none
  else some (loan * (monthly_rate * (1 + monthly_rate) ^ n_payments) /
    ((1 + monthly_rate) ^ n_payments - 1))

end app

/-! ## app5.py and app7.py: tiered down payment and stress test -/

namespace app5

/-- app5.py calculate_down_payment (lines 33-41): the two flag parameters are
accepted but never read; only price selects the tier. -/
def calculate_down_payment (price : ℚ) (first_time_buyer new_construction : Bool) : ℚ :=
  if price ≤ 500000 then price * (5/100)
  else if price ≤ 1500000 then 500000 * (5/100) + (price - 500000) * (10/100)
  else price * (20/100)

/-- app5.py calc_stress_test_payment (lines 46-63): returns
(income_needed, down_payment, stress_rate, amortization_years). -/
def calc_stress_test_payment (price contract_rate : ℚ)
    (first_time_buyer new_construction : Bool) : ℚ × ℚ × ℚ × ℕ :=
  let down_payment := calculate_down_payment price first_time_buyer new_construction
  let loan := price - down_payment
  let stress_rate := max (525/10000 : ℚ) (contract_rate + 2/100)
  let amortization_years : ℕ := if first_time_buyer || new_construction then 30 else 25
  let n_payments := amortization_years * 12
  let monthly_rate := stress_rate / 12
  let monthly_payment := loan * (monthly_rate * (1 + monthly_rate) ^ n_payments) /
    ((1 + monthly_rate) ^ n_payments - 1)
  let income_needed := monthly_payment * 12 / (39/100)
  (income_needed, down_payment, stress_rate, amortization_years)

end app5

namespace app7

/-- app7.py calculate_down_payment (lines 28-36): 5 percent up to 500000,
then 25000 plus 10 percent of the excess up to 1500000, then a flat
20 percent of the whole price above 1500000. -/
def calculate_down_payment (price : ℚ) : ℚ :=
  if price ≤ 500000 then price * (5/100)
  else if price ≤ 1500000 then 500000 * (5/100) + (price - 500000) * (10/100)
  else price * (20/100)

/-- app7.py calc_stress_test_payment (lines 38-57): returns
(income_needed, down_payment, stress_rate, amortization_years). -/
def calc_stress_test_payment (price contract_rate : ℚ)
    (first_time_buyer new_construction : Bool) : ℚ × ℚ × ℚ × ℕ :=
  let down_payment := calculate_down_payment price
  let loan := price - down_payment
  let stress_rate := max (525/10000 : ℚ) (contract_rate + 2/100)
  let amortization_years : ℕ := if first_time_buyer || new_construction then 30 else 25
  let n_payments := amortization_years * 12
  let monthly_rate := stress_rate / 12
  let monthly_payment := loan * (monthly_rate * (1 + monthly_rate) ^ n_payments) /
    ((1 + monthly_rate) ^ n_payments - 1)
  let income_needed := monthly_payment * 12 / (39/100)
  (income_needed, down_payment, stress_rate, amortization_years)

end app7

/-! ## The three down-payment band formulas, one per branch of
calculate_down_payment, used to state continuity at the tier boundaries. -/

/-- Band formula of the first tier (price at most 500000). -/
def tier1_down (price : ℚ) : ℚ := price * (5/100)

/-- Band formula of the middle tier (500000 under price at most 1500000). -/
def tier2_down (price : ℚ) : ℚ := 500000 * (5/100) + (price - 500000) * (10/100)

/-- Band formula of the top tier (price above 1500000). -/
def tier3_down (price : ℚ) : ℚ := price * (20/100)

/-! ## Helper algebra for the annuity formula -/

/-- The price-independent factor of the annuity formula: monthly payment per
unit of loan at a given periodic rate and payment count. -/
def annuity_factor (monthly_rate : ℚ) (n_payments : ℕ) : ℚ :=
  monthly_rate * (1 + monthly_rate) ^ n_payments / ((1 + monthly_rate) ^ n_payments - 1)

lemma annuity_denominator_pos (mr : ℚ) (n : ℕ) (hmr : 0 < mr) (hn : n ≠ 0) :
    0 < (1 + mr) ^ n - 1 := by
  have h1 : (1 : ℚ) < 1 + mr := by linarith
  have h2 : (1 : ℚ) < (1 + mr) ^ n := one_lt_pow₀ h1 hn
  linarith

/-- Shape of every required-income expression in the sources: the
price-dependent loan factors out of the annuity and GDS arithmetic.  The
exponent stays abstract so that the identity is pure field algebra. -/
lemma income_shape (loan mr q : ℚ) (n : ℕ) :
    loan * (mr * (1 + mr) ^ n) / ((1 + mr) ^ n - 1) * 12 / q =
      loan * (annuity_factor mr n * 12 / q) := by
  unfold annuity_factor
  ring

lemma annuity_factor_pos (mr : ℚ) (n : ℕ) (hmr : 0 < mr) (hn : n ≠ 0) :
    0 < annuity_factor mr n := by
  unfold annuity_factor
  have hb : (0 : ℚ) < 1 + mr := by linarith
  exact div_pos (mul_pos hmr (pow_pos hb n)) (annuity_denominator_pos mr n hmr hn)

/-- The full price-independent multiplier of app7 stress-tested required
income: required income equals loan times this factor. -/
def stress_income_factor (contract_rate : ℚ) (ft nc : Bool) : ℚ :=
  annuity_factor (max (525/10000 : ℚ) (contract_rate + 2/100) / 12)
    ((if ft || nc then 30 else 25) * 12) * 12 / (39/100)

lemma stress_income_factor_pos (c : ℚ) (ft nc : Bool) : 0 < stress_income_factor c ft nc := by
  unfold stress_income_factor
  have hmr : (0 : ℚ) < max (525/10000 : ℚ) (c + 2/100) / 12 := by
    have : (525/10000 : ℚ) ≤ max (525/10000 : ℚ) (c + 2/100) := le_max_left _ _
    positivity
  have hn : (if ft || nc then 30 else 25) * 12 ≠ 0 := by
    rcases ft <;> rcases nc <;> norm_num
  have h := annuity_factor_pos _ _ hmr hn
  positivity

lemma app7_income_eq (p c : ℚ) (ft nc : Bool) :
    (app7.calc_stress_test_payment p c ft nc).1 =
      (p - app7.calculate_down_payment p) * stress_income_factor c ft nc := by
  simp only [app7.calc_stress_test_payment, stress_income_factor]
  exact income_shape _ _ _ _

/-- The full price-independent multiplier of the simple-regime required
income in app.py calc_affordable. -/
def simple_income_factor (rate : ℚ) : ℚ :=
  annuity_factor (rate / 12) (25 * 12) * 12 / (28/100)

lemma simple_income_factor_pos (rate : ℚ) (hr : 0 < rate) : 0 < simple_income_factor rate := by
  unfold simple_income_factor
  have hmr : (0 : ℚ) < rate / 12 := by positivity
  have h := annuity_factor_pos (rate / 12) (25 * 12) hmr (by norm_num)
  positivity

lemma app_income_eq (p d r : ℚ) :
    (app.calc_affordable p d r).1 = (p - p * d) * simple_income_factor r := by
  simp only [app.calc_affordable, simple_income_factor]
  exact income_shape _ _ _ _

/-- Loan size after the tiered down payment is non-decreasing in price on
the whole range up to 1500000. -/
lemma app7_loan_mono_low (p1 p2 : ℚ) (h0 : 0 < p1) (h12 : p1 ≤ p2) (h2 : p2 ≤ 1500000) :
    p1 - app7.calculate_down_payment p1 ≤ p2 - app7.calculate_down_payment p2 := by
  unfold app7.calculate_down_payment
  split_ifs <;> linarith

/-- Loan size after the tiered down payment is non-decreasing in price on
the range above 1500000. -/
lemma app7_loan_mono_high (p1 p2 : ℚ) (h1 : 1500000 < p1) (h12 : p1 ≤ p2) :
    p1 - app7.calculate_down_payment p1 ≤ p2 - app7.calculate_down_payment p2 := by
  unfold app7.calculate_down_payment
  split_ifs <;> linarith

lemma app7_down_payment_top (p : ℚ) (hp : 1500000 < p) :
    app7.calculate_down_payment p = p * (20/100) := by
  unfold app7.calculate_down_payment
  rw [if_neg (by linarith), if_neg (by linarith)]

/-! ## C1: monotonicity of required income in price -/

/-- C1 counterexample: the stress-tested required income is not monotone
across the 1500000 down-payment boundary.  With contract rate 0.045 and both
buyer flags false, the required income at price 1600000 is strictly below
the required income at price 1500000, because the down payment jumps from
125000 to 320000 and the loan shrinks from 1375000 to 1280000. -/
theorem C1_counterexample :
    (app7.calc_stress_test_payment 1600000 (45/1000) false false).1 <
      (app7.calc_stress_test_payment 1500000 (45/1000) false false).1 := by
  rw [app7_income_eq, app7_income_eq]
  have hK := stress_income_factor_pos (45/1000) false false
  have h1 : app7.calculate_down_payment 1600000 = 320000 := by
    norm_num [app7.calculate_down_payment]
  have h2 : app7.calculate_down_payment 1500000 = 125000 := by
    norm_num [app7.calculate_down_payment]
  rw [h1, h2]
  exact mul_lt_mul_of_pos_right (by norm_num) hK

/-- C1 amended: required income is non-decreasing in price within the range
up to the 1500000 boundary and within the range above it, for any contract
rate and buyer flags; across the boundary monotonicity fails for every
price p2 with 1500000 under p2 under 1718750 (the loan at 1500000 is
1375000 while the loan above the boundary is 80 percent of price), and is
restored from 1718750 on.  The simple regime of app.py is monotone in price
for any down-payment fraction at most 1 and positive rate. -/
theorem C1_amended :
    (∀ (c : ℚ) (ft nc : Bool) (p1 p2 : ℚ), 0 < p1 → p1 ≤ p2 → p2 ≤ 1500000 →
      (app7.calc_stress_test_payment p1 c ft nc).1 ≤
        (app7.calc_stress_test_payment p2 c ft nc).1) ∧
    (∀ (c : ℚ) (ft nc : Bool) (p1 p2 : ℚ), 1500000 < p1 → p1 ≤ p2 →
      (app7.calc_stress_test_payment p1 c ft nc).1 ≤
        (app7.calc_stress_test_payment p2 c ft nc).1) ∧
    (∀ (c : ℚ) (ft nc : Bool) (p2 : ℚ), 1500000 < p2 → p2 < 1718750 →
      (app7.calc_stress_test_payment p2 c ft nc).1 <
        (app7.calc_stress_test_payment 1500000 c ft nc).1) ∧
    (∀ (c : ℚ) (ft nc : Bool) (p2 : ℚ), 1718750 ≤ p2 →
      (app7.calc_stress_test_payment 1500000 c ft nc).1 ≤
        (app7.calc_stress_test_payment p2 c ft nc).1) ∧
    (∀ (d r p1 p2 : ℚ), 0 < r → d ≤ 1 → 0 ≤ p1 → p1 ≤ p2 →
      (app.calc_affordable p1 d r).1 ≤ (app.calc_affordable p2 d r).1) := by
  refine ⟨?_, ?_, ?_, ?_, ?_⟩
  · intro c ft nc p1 p2 h0 h12 h2
    rw [app7_income_eq, app7_income_eq]
    exact mul_le_mul_of_nonneg_right (app7_loan_mono_low p1 p2 h0 h12 h2)
      (stress_income_factor_pos c ft nc).le
  · intro c ft nc p1 p2 h1 h12
    rw [app7_income_eq, app7_income_eq]
    exact mul_le_mul_of_nonneg_right (app7_loan_mono_high p1 p2 h1 h12)
      (stress_income_factor_pos c ft nc).le
  · intro c ft nc p2 hlo hhi
    rw [app7_income_eq, app7_income_eq]
    have hdp : app7.calculate_down_payment p2 = p2 * (20/100) :=
      app7_down_payment_top p2 hlo
    have h2 : app7.calculate_down_payment 1500000 = 125000 := by
      norm_num [app7.calculate_down_payment]
    rw [hdp, h2]
    exact mul_lt_mul_of_pos_right (by linarith) (stress_income_factor_pos c ft nc)
  · intro c ft nc p2 hp
    rw [app7_income_eq, app7_income_eq]
    have hdp : app7.calculate_down_payment p2 = p2 * (20/100) :=
      app7_down_payment_top p2 (by linarith)
    have h2 : app7.calculate_down_payment 1500000 = 125000 := by
      norm_num [app7.calculate_down_payment]
    rw [hdp, h2]
    exact mul_le_mul_of_nonneg_right (by linarith) (stress_income_factor_pos c ft nc).le
  · intro d r p1 p2 hr hd h0 h12
    rw [app_income_eq, app_income_eq]
    have hloan : p1 - p1 * d ≤ p2 - p2 * d := by nlinarith
    exact mul_le_mul_of_nonneg_right hloan (simple_income_factor_pos r hr).le

/-- C1 witness: the amended monotonicity applied at concrete inputs. -/
theorem C1_amended_witness :
    (app7.calc_stress_test_payment 800000 (45/1000) false false).1 ≤
      (app7.calc_stress_test_payment 900000 (45/1000) false false).1 ∧
    (app7.calc_stress_test_payment 1600000 (45/1000) false false).1 ≤
      (app7.calc_stress_test_payment 1900000 (45/1000) false false).1 ∧
    (app7.calc_stress_test_payment 1500000 (45/1000) false false).1 ≤
      (app7.calc_stress_test_payment 1800000 (45/1000) false false).1 ∧
    (app.calc_affordable 800000 (5/100) (45/1000)).1 ≤
      (app.calc_affordable 900000 (5/100) (45/1000)).1 :=
  ⟨C1_amended.1 (45/1000) false false 800000 900000 (by norm_num) (by norm_num) (by norm_num),
   C1_amended.2.1 (45/1000) false false 1600000 1900000 (by norm_num) (by norm_num),
   C1_amended.2.2.2.1 (45/1000) false false 1800000 (by norm_num),
   C1_amended.2.2.2.2 (5/100) (45/1000) 800000 900000 (by norm_num) (by norm_num)
     (by norm_num) (by norm_num)⟩

/-! ## C2: continuity and slopes of the down-payment tiers -/

/-- C2 counterexample: the two band formulas around the 1500000 threshold do
not agree there (125000 against 300000), and the down payment computed by the
code jumps by more than 175000 between the prices 1500000 and 1500001. -/
theorem C2_counterexample :
    tier2_down 1500000 ≠ tier3_down 1500000 ∧
    app7.calculate_down_payment 1500001 - app7.calculate_down_payment 1500000 > 175000 := by
  constructor
  · norm_num [tier2_down, tier3_down]
  · norm_num [app7.calculate_down_payment]

/-- C2 amended: the band formulas agree at the 500000 threshold (both give
25000), the marginal rates 5, 10 and 20 percent are increasing from tier to
tier, and each branch of calculate_down_payment is the corresponding band
formula; at the 1500000 threshold the two adjacent band formulas differ by
an upward jump of exactly 175000, so continuity fails there. -/
theorem C2_amended :
    tier1_down 500000 = tier2_down 500000 ∧
    tier3_down 1500000 - tier2_down 1500000 = 175000 ∧
    (∀ p q : ℚ, tier1_down q - tier1_down p = (5/100) * (q - p)) ∧
    (∀ p q : ℚ, tier2_down q - tier2_down p = (10/100) * (q - p)) ∧
    (∀ p q : ℚ, tier3_down q - tier3_down p = (20/100) * (q - p)) ∧
    ((5/100 : ℚ) < 10/100 ∧ (10/100 : ℚ) < 20/100) ∧
    (∀ p : ℚ, p ≤ 500000 → app7.calculate_down_payment p = tier1_down p) ∧
    (∀ p : ℚ, 500000 < p → p ≤ 1500000 → app7.calculate_down_payment p = tier2_down p) ∧
    (∀ p : ℚ, 1500000 < p → app7.calculate_down_payment p = tier3_down p) := by
  refine ⟨by norm_num [tier1_down, tier2_down], by norm_num [tier2_down, tier3_down],
    fun p q => by unfold tier1_down; ring, fun p q => by unfold tier2_down; ring,
    fun p q => by unfold tier3_down; ring, by norm_num, ?_, ?_, ?_⟩
  · intro p h
    unfold app7.calculate_down_payment tier1_down
    rw [if_pos h]
  · intro p h1 h2
    unfold app7.calculate_down_payment tier2_down
    rw [if_neg (by linarith), if_pos h2]
  · intro p h
    unfold app7.calculate_down_payment tier3_down
    rw [if_neg (by linarith), if_neg (by linarith)]

/-- C2 witness: the amended branch characterizations at concrete prices. -/
theorem C2_amended_witness :
    app7.calculate_down_payment 400000 = tier1_down 400000 ∧
    app7.calculate_down_payment 800000 = tier2_down 800000 ∧
    app7.calculate_down_payment 2000000 = tier3_down 2000000 ∧
    tier1_down 400000 - tier1_down 100000 = (5/100) * (400000 - 100000) :=
  ⟨C2_amended.2.2.2.2.2.2.1 400000 (by norm_num),
   C2_amended.2.2.2.2.2.2.2.1 800000 (by norm_num) (by norm_num),
   C2_amended.2.2.2.2.2.2.2.2 2000000 (by norm_num),
   C2_amended.2.2.1 100000 400000⟩

/-! ## C3: the annuity formula at periodic rate zero -/

/-- C3 counterexample: no variant special-cases a zero periodic rate.  At
rate 0 the denominator of the annuity formula is (1 + 0) pow n - 1 = 0, the
Python evaluation raises ZeroDivisionError (none in the model), and in
particular the formula does not return principal over n_payments. -/
theorem C3_counterexample :
    app.annuity_monthly_payment 760000 0 300 = none ∧
    app.annuity_monthly_payment 760000 0 300 ≠ some (760000 / 300) := by
  have h : app.annuity_monthly_payment 760000 0 300 = none := by
    norm_num [app.annuity_monthly_payment]
  refine ⟨h, ?_⟩
  rw [h]
  exact fun hc => Option.noConfusion hc

/-- C3 amended: for every strictly positive periodic rate and nonzero number
of payments the annuity denominator is strictly positive, so the formula
evaluates without division by zero; the zero-rate case is not special-cased
and fails instead of returning principal over n_payments. -/
theorem C3_amended :
    ∀ (loan mr : ℚ) (n : ℕ), 0 < mr → n ≠ 0 →
      app.annuity_monthly_payment loan mr n =
        some (loan * (mr * (1 + mr) ^ n) / ((1 + mr) ^ n - 1)) := by
  intro loan mr n hmr hn
  unfold app.annuity_monthly_payment
  rw [if_neg (ne_of_gt (annuity_denominator_pos mr n hmr hn))]

/-- C3 witness: the amended safety statement at the app.py call-site rate
0.045 / 12 = 3/800 and term 300. -/
theorem C3_amended_witness :
    app.annuity_monthly_payment 760000 (3/800) 300 =
      some (760000 * ((3/800) * (1 + 3/800) ^ (300 : ℕ)) / ((1 + 3/800) ^ (300 : ℕ) - 1)) :=
  C3_amended 760000 (3/800) 300 (by norm_num) (by norm_num)

/-! ## C5: the end-to-end simple-regime scenario -/

/-- C5 counterexample: at price 800000 and contract rate 0.045 the required
income of the 5 percent down-payment region is not strictly greater than
that of the 3 percent region; the 5 percent region has the smaller loan
(760000 against 776000) and hence the smaller required income. -/
theorem C5_counterexample :
    ¬ ((app.calc_affordable 800000 (3/100) (45/1000)).1 <
        (app.calc_affordable 800000 (5/100) (45/1000)).1) := by
  rw [app_income_eq, app_income_eq, not_lt]
  have hK := simple_income_factor_pos (45/1000) (by norm_num)
  exact mul_le_mul_of_nonneg_right (by norm_num) hK.le

/-- C5 amended: price 800000, down rate 5 percent, contract rate 4.5
percent gives down payment 40000 and loan 760000, and the required income is
strictly smaller than at a 3 percent down-rate region with the same rate
(lower down payment means larger loan means higher required income). -/
theorem C5_amended :
    (app.calc_affordable 800000 (5/100) (45/1000)).2 = 40000 ∧
    800000 - (app.calc_affordable 800000 (5/100) (45/1000)).2 = 760000 ∧
    (app.calc_affordable 800000 (5/100) (45/1000)).1 <
      (app.calc_affordable 800000 (3/100) (45/1000)).1 := by
  refine ⟨by norm_num [app.calc_affordable], by norm_num [app.calc_affordable], ?_⟩
  rw [app_income_eq, app_income_eq]
  exact mul_lt_mul_of_pos_right (by norm_num) (simple_income_factor_pos (45/1000) (by norm_num))

/-! ## C6: the stress-test qualifying rate -/

/-- C6: the qualifying rate returned by both stress-tested variants equals
max of 0.0525 and contract rate plus 0.02 for every positive contract rate;
contract rate 0.045 yields 0.065 and contract rate 0.01 yields 0.0525. -/
theorem C6_stress_rate :
    (∀ (p c : ℚ) (ft nc : Bool), 0 < c →
        (app7.calc_stress_test_payment p c ft nc).2.2.1 = max (525/10000 : ℚ) (c + 2/100) ∧
        (app5.calc_stress_test_payment p c ft nc).2.2.1 = max (525/10000 : ℚ) (c + 2/100)) ∧
    (app7.calc_stress_test_payment 800000 (45/1000) false false).2.2.1 = 65/1000 ∧
    (app7.calc_stress_test_payment 800000 (1/100) false false).2.2.1 = 525/10000 := by
  refine ⟨fun p c ft nc _ => ⟨rfl, rfl⟩, ?_, ?_⟩
  · show max (525/10000 : ℚ) (45/1000 + 2/100) = 65/1000
    rw [max_eq_right (by norm_num)]
    norm_num
  · show max (525/10000 : ℚ) (1/100 + 2/100) = 525/10000
    rw [max_eq_left (by norm_num)]

/-- C6 witness: the stress-rate formula applied at a concrete input. -/
theorem C6_stress_rate_witness :
    (app7.calc_stress_test_payment 800000 (45/1000) true false).2.2.1 =
        max (525/10000 : ℚ) (45/1000 + 2/100) ∧
    (app5.calc_stress_test_payment 800000 (45/1000) true false).2.2.1 =
        max (525/10000 : ℚ) (45/1000 + 2/100) :=
  C6_stress_rate.1 800000 (45/1000) true false (by norm_num)

/-! ## C7: the amortization term -/

/-- C7: in both stress-tested variants the amortization term is 30 years
when the first-time-buyer or new-construction flag is set and 25 years
otherwise, and the term depends on nothing but the two flags (it is the
same for any two prices and any two contract rates). -/
theorem C7_amortization :
    (∀ (p c : ℚ) (ft nc : Bool), ft = true ∨ nc = true →
        (app7.calc_stress_test_payment p c ft nc).2.2.2 = 30 ∧
        (app5.calc_stress_test_payment p c ft nc).2.2.2 = 30) ∧
    (∀ (p c : ℚ),
        (app7.calc_stress_test_payment p c false false).2.2.2 = 25 ∧
        (app5.calc_stress_test_payment p c false false).2.2.2 = 25) ∧
    (∀ (p1 p2 c1 c2 : ℚ) (ft nc : Bool),
        (app7.calc_stress_test_payment p1 c1 ft nc).2.2.2 =
          (app7.calc_stress_test_payment p2 c2 ft nc).2.2.2) := by
  refine ⟨?_, fun p c => ⟨rfl, rfl⟩, fun p1 p2 c1 c2 ft nc => ?_⟩
  · intro p c ft nc h
    rcases h with h | h
    · subst h; exact ⟨rfl, rfl⟩
    · subst h
      cases ft <;> exact ⟨rfl, rfl⟩
  · cases ft <;> cases nc <;> rfl

/-- C7 witness: the amortization rule at both flag settings. -/
theorem C7_amortization_witness :
    ((app7.calc_stress_test_payment 800000 (45/1000) true false).2.2.2 = 30 ∧
     (app5.calc_stress_test_payment 800000 (45/1000) true false).2.2.2 = 30) ∧
    ((app7.calc_stress_test_payment 1000000 (47/1000) false true).2.2.2 = 30 ∧
     (app5.calc_stress_test_payment 1000000 (47/1000) false true).2.2.2 = 30) :=
  ⟨C7_amortization.1 800000 (45/1000) true false (Or.inl rfl),
   C7_amortization.1 1000000 (47/1000) false true (Or.inr rfl)⟩

/-! ## C10: the buyer flags never influence the down payment -/

/-- C10: the tiered down payment is independent of the buyer flags: the
app5 variant returns the same value for any two flag assignments, and it
always agrees with the flag-free app7 variant. -/
theorem C10_flags_noninterference :
    ∀ (price : ℚ) (ft nc ft2 nc2 : Bool),
      app5.calculate_down_payment price ft nc = app5.calculate_down_payment price ft2 nc2 ∧
      app5.calculate_down_payment price ft nc = app7.calculate_down_payment price :=
  fun _ _ _ _ _ => ⟨rfl, rfl⟩

/-! ## The income-distribution approximations -/

/-- lognorm_cdf as defined identically in app2.py (lines 21-24), app4.py
(lines 26-29), app5.py (lines 22-25) and app7.py (lines 20-23), at the
default parameters mu = 10.45 and sigma = 0.95: zero for non-positive
income, else a tanh approximation of the normal CDF of the log income. -/
noncomputable def lognorm_cdf (x : ℝ) : ℝ :=
  if x ≤ 0 then 0
  else 0.5 * (1 + Real.tanh (Real.sqrt (2/3) * ((Real.log x - 10.45) / 0.95)))

/-- app.py lognorm_cdf (lines 25-27), called with s = sigma = 0.95 and
scale = exp mu for mu = 10.45.  There is no guard on the sign of x:
np.log of a negative argument is NaN, which propagates to a NaN result,
modelled as none; at x = 0 the IEEE evaluation propagates log 0 = minus
infinity through tanh and exp to the value 0, recorded directly. -/
noncomputable def app.lognorm_cdf (x : ℝ) : Option ℝ :=
  if x < 0 then none
  else if x = 0 then some 0
  else some (0.5 * (1 + Real.tanh (Real.sqrt 2 *
      ((Real.log x - Real.log (Real.exp 10.45)) / 0.95) / 2) +
    Real.sqrt (2 / Real.pi) *
      Real.exp (-((Real.log x - Real.log (Real.exp 10.45)) / 0.95) ^ 2 / 2)))

/-! ## Elementary facts about tanh -/

lemma tanh_eq_one_sub (x : ℝ) : Real.tanh x = 1 - 2 / (Real.exp (2 * x) + 1) := by
  rw [Real.tanh_eq_sinh_div_cosh, Real.sinh_eq, Real.cosh_eq]
  have h1 : (0:ℝ) < Real.exp x := Real.exp_pos x
  have h2 : (0:ℝ) < Real.exp (-x) := Real.exp_pos (-x)
  have h3 : (0:ℝ) < Real.exp (2 * x) + 1 := by positivity
  have h4 : Real.exp x * Real.exp x = Real.exp (2 * x) := by
    rw [← Real.exp_add]; ring_nf
  have h5 : Real.exp x * Real.exp (-x) = 1 := by
    rw [← Real.exp_add]; simp
  field_simp
  nlinarith [h4, h5]

lemma tanh_lt_one_real (x : ℝ) : Real.tanh x < 1 := by
  rw [tanh_eq_one_sub]
  have h : (0:ℝ) < 2 / (Real.exp (2 * x) + 1) := by positivity
  linarith

lemma neg_one_lt_tanh_real (x : ℝ) : -1 < Real.tanh x := by
  rw [tanh_eq_one_sub]
  have h : (0:ℝ) < Real.exp (2 * x) := Real.exp_pos _
  have h2 : 2 / (Real.exp (2 * x) + 1) < 2 := by
    rw [div_lt_iff (by positivity)]
    nlinarith
  linarith

lemma tanh_mono {x y : ℝ} (h : x ≤ y) : Real.tanh x ≤ Real.tanh y := by
  rw [tanh_eq_one_sub, tanh_eq_one_sub]
  have hx : (0:ℝ) < Real.exp (2 * x) + 1 := by positivity
  have hxy : Real.exp (2 * x) + 1 ≤ Real.exp (2 * y) + 1 := by
    have := Real.exp_le_exp.mpr (by linarith : 2 * x ≤ 2 * y)
    linarith
  have hdiv : 2 / (Real.exp (2 * y) + 1) ≤ 2 / (Real.exp (2 * x) + 1) := by
    gcongr
  linarith

/-! ## Bounds and monotonicity of the shared tanh cdf -/

lemma lognorm_cdf_nonneg (x : ℝ) : 0 ≤ lognorm_cdf x := by
  unfold lognorm_cdf
  split_ifs
  · exact le_refl 0
  · have h := neg_one_lt_tanh_real (Real.sqrt (2/3) * ((Real.log x - 10.45) / 0.95))
    linarith

lemma lognorm_cdf_le_one (x : ℝ) : lognorm_cdf x ≤ 1 := by
  unfold lognorm_cdf
  split_ifs
  · norm_num
  · have h := tanh_lt_one_real (Real.sqrt (2/3) * ((Real.log x - 10.45) / 0.95))
    linarith

lemma lognorm_cdf_mono {x1 x2 : ℝ} (h0 : 0 < x1) (h : x1 ≤ x2) :
    lognorm_cdf x1 ≤ lognorm_cdf x2 := by
  unfold lognorm_cdf
  rw [if_neg (not_le.mpr h0), if_neg (not_le.mpr (lt_of_lt_of_le h0 h))]
  have hlog : Real.log x1 ≤ Real.log x2 := Real.log_le_log h0 h
  have harg : Real.sqrt (2/3) * ((Real.log x1 - 10.45) / 0.95) ≤
      Real.sqrt (2/3) * ((Real.log x2 - 10.45) / 0.95) := by
    gcongr
  have := tanh_mono harg
  linarith

/-! ## C4: monotonicity and boundedness of the cdf approximations -/

/-- C4 amended: the tanh approximation shared by app2, app4, app5 and app7
is monotone non-decreasing on positive incomes, always lies in the closed
unit interval, and the induced survival values are antitone and lie in the
closed unit interval as the claim asks; the claim fails only for the
app.py approximation (see the counterexample, whose value exceeds 1). -/
theorem C4_amended :
    (∀ x : ℝ, 0 ≤ lognorm_cdf x ∧ lognorm_cdf x ≤ 1) ∧
    (∀ x1 x2 : ℝ, 0 < x1 → x1 ≤ x2 → lognorm_cdf x1 ≤ lognorm_cdf x2) ∧
    (∀ i1 i2 : ℝ, 0 < i1 → i1 < i2 →
      1 - lognorm_cdf i2 ≤ 1 - lognorm_cdf i1 ∧
      0 ≤ 1 - lognorm_cdf i2 ∧ 1 - lognorm_cdf i2 ≤ 1 ∧
      0 ≤ 1 - lognorm_cdf i1 ∧ 1 - lognorm_cdf i1 ≤ 1) := by
  refine ⟨fun x => ⟨lognorm_cdf_nonneg x, lognorm_cdf_le_one x⟩,
    fun x1 x2 h0 h => lognorm_cdf_mono h0 h, fun i1 i2 h0 h => ?_⟩
  have hm := lognorm_cdf_mono h0 h.le
  have hb1 := lognorm_cdf_nonneg i1
  have hb2 := lognorm_cdf_le_one i1
  have hb3 := lognorm_cdf_nonneg i2
  have hb4 := lognorm_cdf_le_one i2
  exact ⟨by linarith, by linarith, by linarith, by linarith, by linarith⟩

/-- C4 witness: monotonicity and bounds of the shared cdf at concrete
incomes. -/
theorem C4_amended_witness :
    lognorm_cdf 50000 ≤ lognorm_cdf 100000 ∧
    0 ≤ lognorm_cdf 50000 ∧ lognorm_cdf 50000 ≤ 1 :=
  ⟨C4_amended.2.1 50000 100000 (by norm_num) (by norm_num),
   (C4_amended.1 50000).1, (C4_amended.1 50000).2⟩

/-! ## Numeric bounds used to refute C4 on the app.py approximation -/

lemma sqrt_two_lb : (1.414:ℝ) ≤ Real.sqrt 2 :=
  (Real.le_sqrt (by norm_num) (by norm_num)).mpr (by norm_num)

lemma exp_sqrt_two_lb : (3.6768:ℝ) ≤ Real.exp (Real.sqrt 2) := by
  have h2 : Real.exp 1.414 ≤ Real.exp (Real.sqrt 2) := Real.exp_le_exp.mpr sqrt_two_lb
  have h3 : Real.exp 1.414 = Real.exp 0.17675 ^ (8:ℕ) := by
    rw [← Real.exp_nat_mul]
    norm_num
  have h4 : (1.17675:ℝ) ≤ Real.exp 0.17675 := by
    have := Real.add_one_le_exp (0.17675:ℝ)
    linarith
  have h5 : (1.17675:ℝ) ^ (8:ℕ) ≤ Real.exp 0.17675 ^ (8:ℕ) :=
    pow_le_pow_left (by norm_num) h4 8
  have h6 : (3.6768:ℝ) ≤ (1.17675:ℝ) ^ (8:ℕ) := by norm_num
  calc (3.6768:ℝ) ≤ (1.17675:ℝ) ^ (8:ℕ) := h6
    _ ≤ Real.exp 0.17675 ^ (8:ℕ) := h5
    _ = Real.exp 1.414 := h3.symm
    _ ≤ Real.exp (Real.sqrt 2) := h2

lemma tanh_sqrt_two_half_lb : (0.5723:ℝ) ≤ Real.tanh (Real.sqrt 2 / 2) := by
  rw [tanh_eq_one_sub]
  have h : 2 * (Real.sqrt 2 / 2) = Real.sqrt 2 := by ring
  rw [h]
  have h2 := exp_sqrt_two_lb
  have h4 : 2 / (Real.exp (Real.sqrt 2) + 1) ≤ 2 / (3.6768 + 1) := by
    gcongr
  have h5 : (2:ℝ) / (3.6768 + 1) ≤ 0.4277 := by norm_num
  linarith

lemma sqrt_two_div_pi_lb : (0.7978:ℝ) ≤ Real.sqrt (2 / Real.pi) := by
  have hpi : Real.pi < 3.141593 := Real.pi_lt_d6
  have hpi0 : (0:ℝ) < Real.pi := Real.pi_pos
  have h : (0.7978:ℝ) ^ 2 ≤ 2 / Real.pi := by
    rw [le_div_iff hpi0]
    nlinarith
  exact (Real.le_sqrt (by norm_num) (by positivity)).mpr h

lemma exp_neg_half_lb : (0.6065:ℝ) ≤ Real.exp (-(1/2)) := by
  have h1 : Real.exp (1/2) ^ (2:ℕ) = Real.exp 1 := by
    rw [← Real.exp_nat_mul]
    norm_num
  have h2 : Real.exp 1 < 2.7182818286 := Real.exp_one_lt_d9
  have h3 : (0:ℝ) < Real.exp (1/2) := Real.exp_pos _
  have h4 : Real.exp (1/2) ≤ 1.64873 := by nlinarith
  have h6 : (0:ℝ) < (Real.exp (1/2))⁻¹ := by positivity
  have h7 : Real.exp (1/2) * (Real.exp (1/2))⁻¹ = 1 := mul_inv_cancel₀ (ne_of_gt h3)
  rw [Real.exp_neg]
  nlinarith [mul_le_mul_of_nonneg_right h4 h6.le]

/-- C4 counterexample: the app.py approximation is not bounded by 1.  At
the concrete income exp 11.4 (about 89321 dollars) the standardized value z
is exactly 1 and the formula returns about 1.046, strictly above 1, so the
cdf value does not lie in the unit interval and the derived survival value
is negative. -/
theorem C4_counterexample :
    1 < (app.lognorm_cdf (Real.exp 11.4)).getD 0 := by
  have hx : (0:ℝ) < Real.exp 11.4 := Real.exp_pos _
  unfold app.lognorm_cdf
  rw [if_neg (not_lt.mpr hx.le), if_neg (ne_of_gt hx)]
  rw [Option.getD_some, Real.log_exp, Real.log_exp]
  have hz : ((11.4:ℝ) - 10.45) / 0.95 = 1 := by norm_num
  rw [hz]
  have e1 : Real.sqrt 2 * 1 / 2 = Real.sqrt 2 / 2 := by ring
  have e2 : (-(1:ℝ) ^ 2 / 2) = -(1/2) := by norm_num
  rw [e1, e2]
  have h1 := tanh_sqrt_two_half_lb
  have h2 := sqrt_two_div_pi_lb
  have h3 := exp_neg_half_lb
  have h4 : (0:ℝ) ≤ Real.sqrt (2 / Real.pi) := Real.sqrt_nonneg _
  have h5 : (0.7978:ℝ) * 0.6065 ≤ Real.sqrt (2 / Real.pi) * Real.exp (-(1/2)) :=
    mul_le_mul h2 h3 (by norm_num) h4
  nlinarith [h5]

/-! ## C8: behaviour of the cdf at non-positive income -/

/-- C8 counterexample: the app.py cumulative function has no guard for
non-positive income; at income minus 1 the numpy log is NaN, the result is
NaN (none in the model), and in particular it is not the number 0 that the
claim requires every variant to return. -/
theorem C8_counterexample :
    app.lognorm_cdf (-1) = none ∧ app.lognorm_cdf (-1) ≠ some 0 := by
  have h : app.lognorm_cdf (-1) = none := by
    unfold app.lognorm_cdf
    rw [if_pos (by norm_num)]
  exact ⟨h, by rw [h]; exact fun hc => Option.noConfusion hc⟩

/-- C8 amended: the guarded cumulative function shared by app2, app4, app5
and app7 returns exactly 0 on every non-positive income, so the survival
value there is 1; app.py alone lacks the guard (see the counterexample). -/
theorem C8_amended :
    ∀ x : ℝ, x ≤ 0 → lognorm_cdf x = 0 ∧ 1 - lognorm_cdf x = 1 := by
  intro x h
  unfold lognorm_cdf
  rw [if_pos h]
  norm_num

/-- C8 witness: the guarded cdf at the concrete income minus 5. -/
theorem C8_amended_witness : lognorm_cdf (-5) = 0 ∧ 1 - lognorm_cdf (-5) = 1 :=
  C8_amended (-5) (by norm_num)

/-! ## C9: the dual-property winner of app7.py -/

/-- Household type selected in app7.py line 75. -/
inductive Household
  | single
  | couple

/-- Income multiplier of app7.py lines 98-105: couples qualify at 75
percent of the single-earner required income. -/
def income_mult : Household → ℚ
  | Household.single => 1
  | Household.couple => 75/100

/-- Population multiplier of app7.py lines 98-105: 40 percent single
households, 60 percent couples. -/
def household_pop_mult : Household → ℚ
  | Household.single => 40/100
  | Household.couple => 60/100

/-- Qualified-buyer count of one property in app7.py lines 107-110: the
survival value of the adjusted required income, clamped below at 0, times
the regional population times the household population multiplier. -/
noncomputable def app7.qualified_buyers (price contract_rate : ℚ) (ft nc : Bool)
    (hh : Household) (pop : ℚ) : ℝ :=
  max 0 (1 - lognorm_cdf (((app7.calc_stress_test_payment price contract_rate ft nc).1 *
    income_mult hh : ℚ) : ℝ)) * (pop : ℝ) * ((household_pop_mult hh : ℚ) : ℝ)

/-- Outcome reported by the winner block of app7.py. -/
inductive Verdict
  | prop1_wins
  | prop2_wins
  | tie

/-- Winner block of app7.py lines 131-147: when the two prices differ by
more than 50000, property 1 is reported the winner on a positive buyer
difference, property 2 on a negative one, and a tie otherwise; when the
prices differ by at most 50000 nothing is reported. -/
noncomputable def app7.winner (price1 price2 contract_rate : ℚ) (ft nc : Bool)
    (hh : Household) (pop : ℚ) : Option Verdict :=
  if |price1 - price2| > 50000 then
    if app7.qualified_buyers price1 contract_rate ft nc hh pop -
        app7.qualified_buyers price2 contract_rate ft nc hh pop > 0 then
      some Verdict.prop1_wins
    else if app7.qualified_buyers price1 contract_rate ft nc hh pop -
        app7.qualified_buyers price2 contract_rate ft nc hh pop < 0 then
      some Verdict.prop2_wins
    else some Verdict.tie
  else none

/-- C9 counterexample: a tie is reachable above the materiality threshold,
so it is not true that exactly one property is always reported the winner.
The prices 1500000 and 1718750 differ by 218750 yet produce the same loan
(1375000, because the down payment jumps at the 1500000 tier boundary),
hence the same required income, the same buyer count, and app7 reports a
tie instead of a winner. -/
theorem C9_counterexample :
    |(1500000:ℚ) - 1718750| > 50000 ∧
    app7.winner 1500000 1718750 (45/1000) false false Household.single 20000000 =
      some Verdict.tie := by
  have hinc : (app7.calc_stress_test_payment 1500000 (45/1000) false false).1 =
      (app7.calc_stress_test_payment 1718750 (45/1000) false false).1 := by
    rw [app7_income_eq, app7_income_eq]
    norm_num [app7.calculate_down_payment]
  have hq : app7.qualified_buyers 1500000 (45/1000) false false Household.single 20000000 =
      app7.qualified_buyers 1718750 (45/1000) false false Household.single 20000000 := by
    unfold app7.qualified_buyers
    rw [hinc]
  unfold app7.winner
  rw [hq]
  refine ⟨by norm_num, ?_⟩
  rw [if_pos (by norm_num), if_neg (by simp), if_neg (by simp)]

/-- C9 amended: above the 50000 materiality threshold app7 reports
property 1 exactly when its buyer count is strictly larger, property 2
exactly when its count is strictly larger, and a tie exactly when the
counts are equal (the tie case is reachable, see the counterexample); at
or below the threshold nothing is reported. -/
theorem C9_amended :
    ∀ (p1 p2 c : ℚ) (ft nc : Bool) (hh : Household) (pop : ℚ),
      (|p1 - p2| > 50000 →
        ((app7.winner p1 p2 c ft nc hh pop = some Verdict.prop1_wins ↔
            app7.qualified_buyers p2 c ft nc hh pop <
              app7.qualified_buyers p1 c ft nc hh pop) ∧
         (app7.winner p1 p2 c ft nc hh pop = some Verdict.prop2_wins ↔
            app7.qualified_buyers p1 c ft nc hh pop <
              app7.qualified_buyers p2 c ft nc hh pop) ∧
         (app7.winner p1 p2 c ft nc hh pop = some Verdict.tie ↔
            app7.qualified_buyers p1 c ft nc hh pop =
              app7.qualified_buyers p2 c ft nc hh pop))) ∧
      (|p1 - p2| ≤ 50000 → app7.winner p1 p2 c ft nc hh pop = none) := by
  intro p1 p2 c ft nc hh pop
  constructor
  · intro h
    unfold app7.winner
    rw [if_pos h]
    rcases lt_trichotomy (app7.qualified_buyers p1 c ft nc hh pop)
      (app7.qualified_buyers p2 c ft nc hh pop) with hlt | heq | hgt
    · rw [if_neg (by linarith), if_pos (by linarith)]
      refine ⟨iff_of_false (fun hc => Verdict.noConfusion (Option.some.inj hc))
        (not_lt.mpr hlt.le), iff_of_true rfl hlt,
        iff_of_false (fun hc => Verdict.noConfusion (Option.some.inj hc)) (ne_of_lt hlt)⟩
    · rw [if_neg (by linarith), if_neg (by linarith)]
      refine ⟨iff_of_false (fun hc => Verdict.noConfusion (Option.some.inj hc))
        (not_lt.mpr heq.le), iff_of_false
        (fun hc => Verdict.noConfusion (Option.some.inj hc)) (not_lt.mpr heq.ge),
        iff_of_true rfl heq⟩
    · rw [if_pos (by linarith)]
      refine ⟨iff_of_true rfl hgt, iff_of_false
        (fun hc => Verdict.noConfusion (Option.some.inj hc)) (not_lt.mpr hgt.le),
        iff_of_false (fun hc => Verdict.noConfusion (Option.some.inj hc))
        (ne_of_gt hgt)⟩
  · intro h
    unfold app7.winner
    rw [if_neg (not_lt.mpr h)]

/-- C9 witness: the amended winner characterization at concrete prices on
both sides of the materiality threshold. -/
theorem C9_amended_witness :
    ((app7.winner 800000 1000000 (45/1000) false false Household.single 20000000 =
        some Verdict.prop1_wins ↔
        app7.qualified_buyers 1000000 (45/1000) false false Household.single 20000000 <
          app7.qualified_buyers 800000 (45/1000) false false Household.single 20000000) ∧
     (app7.winner 800000 1000000 (45/1000) false false Household.single 20000000 =
        some Verdict.prop2_wins ↔
        app7.qualified_buyers 800000 (45/1000) false false Household.single 20000000 <
          app7.qualified_buyers 1000000 (45/1000) false false Household.single 20000000) ∧
     (app7.winner 800000 1000000 (45/1000) false false Household.single 20000000 =
        some Verdict.tie ↔
        app7.qualified_buyers 800000 (45/1000) false false Household.single 20000000 =
          app7.qualified_buyers 1000000 (45/1000) false false Household.single 20000000)) ∧
    app7.winner 800000 810000 (45/1000) false false Household.single 20000000 = none :=
  ⟨(C9_amended 800000 1000000 (45/1000) false false Household.single 20000000).1
      (by norm_num),
   (C9_amended 800000 810000 (45/1000) false false Household.single 20000000).2
      (by norm_num)⟩

end BuyingPool
